import Mathlib

set_option allowUnsafeReducibility true
attribute [local semireducible] Rat.add Rat.mul Rat.sub Rat.inv

/-
Verification of the pulsarsurveyscraper_server Flask application (src/app.py)
against its natural-language specification.

Shallow embedding conventions:
- Python floats are modelled as rationals.
- The external pulsarsurveyscraper matcher, the astropy coordinate library
  and the pygedm electron-density models are not part of src/app.py; they
  are either modelled from the specification (the matcher, unit checking)
  or abstracted as function parameters bundled in an "externals" record.
- Each HTTP handler becomes a pure function from its (already decoded)
  request data to a response value paired with a log of the external calls
  it performed, so that "no catalog scan is performed" is a statement about
  that log.
- Code that would raise an exception escaping the handler is modelled by a
  dedicated "uncaught" response constructor, distinct from the client-visible
  error strings the handler returns deliberately.
-/

/-- A sky position: the pair of angular values used by app.py.
Frame bookkeeping is not needed by the handlers under verification. -/
structure Coord where
  ra : ℚ
  dec : ℚ
deriving DecidableEq

/-- An astropy-style quantity: a numeric value together with the power of
the unit deg attached to it.  app.py mixes bare floats (power 0) and
values multiplied by u.deg (power 1); multiplying again by u.deg bumps
the power.  The external libraries only accept angles (power 1). -/
structure Qty where
  val : ℚ
  degPow : ℤ
deriving DecidableEq

/-- One row of the pulsar catalog (spec section 3, CatalogEntry):
name, position, optional dispersion measure, period, distance, survey. -/
structure CatalogEntry where
  psr : String
  pos : Coord
  dm : Option ℚ
  period : ℚ
  distance : ℚ
  survey : String
deriving DecidableEq

/-! ### Python float() on decimal literals

app.py converts request parameters with float(...).  The model accepts an
optional sign and decimal digits with at most one dot, which covers every
value the application itself ever serialises; any other text makes the
real float(...) raise ValueError, modelled by returning none. -/

def digitsToNat (l : List Char) : ℕ :=
  l.foldl (fun a c => 10 * a + (c.toNat - 48)) 0

def parseDec (cs : List Char) : Option ℚ :=
  let intPart := cs.takeWhile (fun c => c.isDigit)
  let rest := cs.dropWhile (fun c => c.isDigit)
  match rest with
  | [] => if intPart = [] then none else some ((digitsToNat intPart : ℚ))
  | '.' :: frac =>
    if frac.all (fun c => c.isDigit) ∧ (intPart ≠ [] ∨ frac ≠ []) then
      some ((digitsToNat intPart : ℚ) + (digitsToNat frac : ℚ) / (10 ^ frac.length))
    else none
  | _ => none

def pyFloat (s : String) : Option ℚ :=
  match s.data with
  | '-' :: r => (parseDec r).map (fun q => -q)
  | '+' :: r => parseDec r
  | r => parseDec r

/-! ### Fixed-point numeric formatting

Models the percent-style .1f and .2f conversions used for the display
strings, rounding half up; only self-consistency of the rendering is used
by the claims. -/

def qRound (q : ℚ) : ℤ := Rat.floor (q + 1 / 2)

def padZeros (w : ℕ) (s : String) : String :=
  String.mk (List.replicate (w - s.length) '0') ++ s

def fixedFmt (nd : ℕ) (q : ℚ) : String :=
  let m : ℤ := qRound (q * 10 ^ nd)
  let sgn := if m < 0 then ("-") else ("")
  let n := m.natAbs
  sgn ++ toString (n / 10 ^ nd) ++ "." ++ padZeros nd (toString (n % 10 ^ nd))

def fixed1 : ℚ → String := fixedFmt 1

def fixed2 : ℚ → String := fixedFmt 2

/-- Default rendering of an unformatted numeric table cell (the pandas
float display); modelled as six fixed decimals, which is irrelevant to
every claim except that it is not the 2-decimal form. -/
def defaultFmt (q : ℚ) : String := fixedFmt 6 q

/-! ### The catalog matcher -/

/-- Stable insertion of x before the first element not strictly smaller. -/
def insertBy (le : α → α → Bool) (x : α) : List α → List α
  | [] => [x]
  | y :: ys => if le x y then x :: y :: ys else y :: insertBy le x ys

/-- Stable insertion sort. -/
def sortBy (le : α → α → Bool) : List α → List α
  | [] => []
  | x :: xs => insertBy le x (sortBy le xs)

/-- Modelled from the spec: the inclusion test of the Matcher
(spec section 4.3), which lives in the external pulsarsurveyscraper
library and not under src/.  An entry is kept iff its separation from the
query center is at most the radius and, when a DM window (center and
tolerance) is given, its DM exists and lies within the window; entries
lacking a DM are excluded by an active DM filter. -/
def searchFilter (sep : Coord → Coord → ℚ) (c : Coord) (radius : ℚ)
    (dm dmtol : Option ℚ) (e : CatalogEntry) : Bool :=
  decide (sep c e.pos ≤ radius) &&
    (match dm, dmtol with
     | some d, some t =>
       match e.dm with
       | some ed => decide (|ed - d| ≤ t)
       | none => false
     | _, _ => true)

/-- Modelled from the spec: PulsarTable.search of the external
pulsarsurveyscraper library (spec sections 3 and 4.3), called by app.py at
lines 95-97 and 184-186.  It returns the catalog entries passing
searchFilter, sorted stably by ascending angular separation.  The
angular-separation oracle sep is a parameter (the spec delegates it to the
trusted coordinate library). -/
def PulsarTable.search (sep : Coord → Coord → ℚ) (entries : List CatalogEntry)
    (c : Coord) (radius : ℚ) (dm dmtol : Option ℚ) : List CatalogEntry :=
  sortBy (fun a b => decide (sep c a.pos ≤ sep c b.pos))
    (entries.filter (searchFilter sep c radius dm dmtol))

/-! ### Python str.replace

Line 120 of app.py rewrites the whole HTML table with
html_table.replace(survey, anchor).  Python replaces every occurrence,
scanning left to right without rescanning the replacement text.  The
model recurses on a fuel argument (initialised to the length of the
subject string, which suffices because each step consumes at least one
character) so that it stays structurally recursive and evaluates inside
the kernel. -/

def replaceFuel (pat repl : List Char) : ℕ → List Char → List Char
  | _, [] => []
  | 0, s => s
  | Nat.succ fuel, c :: rest =>
    if pat.isPrefixOf (c :: rest) ∧ pat ≠ [] then
      repl ++ replaceFuel pat repl fuel ((c :: rest).drop pat.length)
    else
      c :: replaceFuel pat repl fuel rest

def replaceList (pat repl s : List Char) : List Char :=
  replaceFuel pat repl s.length s

/-- Model of Python str.replace as used at app.py line 120. -/
def pyReplace (s pat repl : String) : String :=
  String.mk (replaceList pat.data repl.data s.data)

/-! ### HTML table rendering (Search route, lines 110-125)

Models the pandas to_html pipeline: one header row from the column names,
one body row per catalog entry, each numeric cell passed through the
formatter registered for its column (the formatters dictionary of line
115) or the default float rendering otherwise.  Pandas attribute noise is
omitted; cell text and column structure are kept. -/

inductive Cell
  | num (q : ℚ)
  | str (s : String)
deriving DecidableEq

def dmCell : Option ℚ → Cell
  | some d => .num d
  | none => .str ("NaN")

def tableColumns : List String :=
  ["PSR", "RA", "Dec", "P", "DM", "Distance", "survey"]

def entryCells (e : CatalogEntry) : List (String × Cell) :=
  [("PSR", .str e.psr), ("RA", .num e.pos.ra), ("Dec", .num e.pos.dec),
   ("P", .num e.period), ("DM", dmCell e.dm), ("Distance", .num e.distance),
   ("survey", .str e.survey)]

def renderCell (fmts : List (String × (ℚ → String))) (col : String) : Cell → String
  | .str s => s
  | .num q =>
    match fmts.find? (fun f => f.1 == col) with
    | some f => f.2 q
    | none => defaultFmt q

def tdCell (s : String) : String := "<td>" ++ s ++ "</td>"

def thCell (s : String) : String := "<th>" ++ s ++ "</th>"

def headerRow : String :=
  "<tr>" ++ String.join (tableColumns.map thCell) ++ "</tr>"

def renderRow (fmts : List (String × (ℚ → String))) (e : CatalogEntry) : String :=
  "<tr>" ++
    String.join ((entryCells e).map (fun c => tdCell (renderCell fmts c.1 c.2))) ++
    "</tr>"

def toHtml (fmts : List (String × (ℚ → String))) (rows : List CatalogEntry) : String :=
  "<table>" ++ headerRow ++ String.join (rows.map (renderRow fmts)) ++ "</table>"

/-- The formatters dictionary of app.py line 115: P and Distance are
rendered with two fixed decimals. -/
def searchFormatters : List (String × (ℚ → String)) :=
  [("P", fixed2), ("Distance", fixed2)]

/-- The anchor markup substituted for a survey name (app.py lines 122-124). -/
def anchorFor (name url : String) : String :=
  "<a href=\x27" ++ url ++ "\x27>" ++ name ++ "</a>"

/-- The survey-link loop of app.py lines 119-125: for each known survey,
replace every occurrence of its name in the whole HTML string by the
anchor markup. -/
def linkify (surveys : List (String × String)) (html : String) : String :=
  surveys.foldl (fun h sv => pyReplace h sv.1 (anchorFor sv.1 sv.2)) html

/-! ### The Search route (app.py lines 33-140) -/

/-- A call into the external catalog matcher, recording the arguments the
handler passed (app.py lines 95-97 and 184-186).  The radius is recorded
as a quantity, because the API route can pass a non-angle there. -/
inductive Effect
  | searchCall (center : Coord) (radius : Qty) (dm dmtol : Option ℚ)
deriving DecidableEq

/-- The decoded, validated Search form (class SearchForm of forms.py,
which is not under src/): coordinates text, radius, optional DM and DM
tolerance, the API and Clear buttons, and whether validate_on_submit
succeeded.  Numeric fields are stored as the rationals float(...) would
produce, which is how the handler consumes them. -/
structure SearchForm where
  coordinates : String
  radius : ℚ
  dm : Option ℚ
  dmtol : Option ℚ
  api : Bool
  clear : Bool
  valid : Bool

/-- External collaborators of the Search route: the separation oracle and
catalog rows of the matcher, the coordinate parser of forms.py (not under
src/), the two astropy string renderings used for the banner text, and
the survey name/url table of pulsarsurveyscraper.Surveys. -/
structure SearchX where
  sep : Coord → Coord → ℚ
  entries : List CatalogEntry
  parseEqu : String → Coord
  hmsdms : Coord → String
  raDec : Coord → String × String
  surveys : List (String × String)

inductive SearchResponse
  | redirectAPI (ra dec radius : ℚ) (dm dmtol : Option ℚ)
  | redirectSearch
  | renderResults (surveys : List (String × String)) (coordString : String)
      (nfound : ℕ) (htmlTable : String)
  | renderForm (surveys : List (String × String))
deriving DecidableEq

/-- Lines 58-61 of app.py: the DM tolerance used by the handler.  When the
dmtol field is present it is float(form.dmtol.data); when it is absent the
else branch assigns form.dm.data, the DM field itself, not a tolerance
default. -/
def searchDMtol (form : SearchForm) : Option ℚ :=
  match form.dmtol with
  | some t => some t
  | none => form.dm

/-- Lines 99-108 of app.py: the banner string above the results table.
When a DM is given, the tolerance printed is searchDMtol, which is then
necessarily present; getD d is an unreachable default. -/
def searchCoordString (X : SearchX) (form : SearchForm) : String :=
  let coord := X.parseEqu form.coordinates
  let base := "Searching " ++ fixed1 form.radius ++ "deg around RA,Dec " ++
    X.hmsdms coord ++ " = " ++ (X.raDec coord).1 ++ "d," ++ (X.raDec coord).2 ++
    "d ..."
  match form.dm with
  | none => base
  | some d =>
    base ++ "<br>Also requiring DM with +/-" ++
      fixed1 ((searchDMtol form).getD d) ++ " of " ++ fixed1 d ++ " pc/cm**2"

/-- The Search route of app.py (function Search, lines 33-140).  Returns
the response together with the log of matcher invocations.  The branch
order mirrors the source: validation, DM and DM-tolerance extraction
(lines 54-61), API redirect (lines 66-86), clear redirect (lines 87-89),
then the catalog search and HTML rendering (lines 95-134); an invalid
submission can still clear (lines 137-138). -/
def Search (X : SearchX) (form : SearchForm) : SearchResponse × List Effect :=
  if form.valid then
    let coord := X.parseEqu form.coordinates
    let DM := form.dm
    let DMtol := searchDMtol form
    if form.api then
      match DM with
      | none => (.redirectAPI coord.ra coord.dec form.radius none none, [])
      | some d => (.redirectAPI coord.ra coord.dec form.radius (some d) DMtol, [])
    else if form.clear then
      (.redirectSearch, [])
    else
      let result := PulsarTable.search X.sep X.entries coord form.radius DM DMtol
      (.renderResults X.surveys (searchCoordString X form) result.length
          (linkify X.surveys (toHtml searchFormatters result)),
        [.searchCall coord ⟨form.radius, 1⟩ DM DMtol])
  else if form.clear then
    (.redirectSearch, [])
  else
    (.renderForm X.surveys, [])

/-! ### The API route (app.py lines 143-188) -/

/-- The raw query parameters of an API request, each either absent or the
text Flask decoded. -/
structure ApiArgs where
  ra : Option String
  dec : Option String
  radius : Option String
  dm : Option String
  dmtol : Option String
deriving DecidableEq

/-- External collaborators of the API route. -/
structure ApiX where
  sep : Coord → Coord → ℚ
  entries : List CatalogEntry

inductive ApiResponse
  /-- Line 167: the string returned when ra is absent. -/
  | errorNoRA
  /-- Line 171: the string returned when dec is absent. -/
  | errorNoDec
  /-- A ValueError raised by float(...) on the recorded text; no handler
  code catches it, so it escapes the route (HTTP 500), unlike the
  deliberate error strings. -/
  | uncaughtValueError (badInput : String)
  /-- Lines 179-182: the caught SkyCoord failure, echoing ra and dec. -/
  | coordError (ra dec : ℚ)
  /-- A unit-conversion failure inside the library search, raised when the
  radius quantity is not an angle; nothing catches it either. -/
  | uncaughtUnitError (radius : Qty)
  /-- Line 188: the JSON result rows. -/
  | json (rows : List CatalogEntry)
deriving DecidableEq

/-- Outcome of reading one optional numeric parameter: its value (or the
default when absent), or the text on which float(...) raised. -/
inductive ParseStep (α : Type)
  | ok (a : α)
  | raise (bad : String)

def optArg {α : Type} (dflt : α) (conv : ℚ → α) (s : Option String) : ParseStep α :=
  match s with
  | none => .ok dflt
  | some str =>
    match pyFloat str with
    | none => .raise str
    | some v => .ok (conv v)

/-- The API route of app.py (function API, lines 143-188).  Defaults (lines
159-162): radius is the quantity 5 deg, dm is None, dmtol is 10.  Each
supplied parameter is converted with float(...) in source order (ra, dec,
radius, dm, dmtol); a supplied radius is a bare float (power 0).  SkyCoord
construction (line 180) fails, and is caught, when dec is outside
[-90, 90] (modelled from the spec invariant in section 3).  The search call
(line 185) multiplies the radius by u.deg once more; the library accepts
only an angle (power 1) there and otherwise fails unit conversion. -/
def API (X : ApiX) (args : ApiArgs) : ApiResponse × List Effect :=
  match args.ra with
  | none => (.errorNoRA, [])
  | some raS =>
    match pyFloat raS with
    | none => (.uncaughtValueError raS, [])
    | some ra =>
      match args.dec with
      | none => (.errorNoDec, [])
      | some decS =>
        match pyFloat decS with
        | none => (.uncaughtValueError decS, [])
        | some dec =>
          match optArg (⟨5, 1⟩ : Qty) (fun v => ⟨v, 0⟩) args.radius with
          | .raise s => (.uncaughtValueError s, [])
          | .ok radius =>
            match optArg (none : Option ℚ) some args.dm with
            | .raise s => (.uncaughtValueError s, [])
            | .ok dm =>
              match optArg (10 : ℚ) id args.dmtol with
              | .raise s => (.uncaughtValueError s, [])
              | .ok dmtol =>
                if -90 ≤ dec ∧ dec ≤ 90 then
                  let radiusArg : Qty := ⟨radius.val, radius.degPow + 1⟩
                  let effs := [Effect.searchCall ⟨ra, dec⟩ radiusArg dm (some dmtol)]
                  if radiusArg.degPow = 1 then
                    (.json (PulsarTable.search X.sep X.entries ⟨ra, dec⟩
                        radiusArg.val dm (some dmtol)), effs)
                  else
                    (.uncaughtUnitError radiusArg, effs)
                else
                  (.coordError ra dec, [])

/-- The catalog search the API route performs when it receives ra, dec and
radius as numbers together with optional dm and dmtol, as a redirect from
the Search form always supplies them: dm defaults to None, dmtol to 10
(lines 159-162), and the radius reaches the matcher as an angle. -/
def apiSearchOf (sep : Coord → Coord → ℚ) (entries : List CatalogEntry)
    (ra dec radius : ℚ) (dm dmtol : Option ℚ) : List CatalogEntry :=
  PulsarTable.search sep entries ⟨ra, dec⟩ radius dm (some (dmtol.getD 10))

/-! ### The Compute route (app.py lines 191-268) -/

/-- The model of the SkyCoord object the Compute route manipulates: the
galactic longitude and latitude it feeds to pygedm, and the formatted
strings astropy produces for the banner text. -/
structure SkyC where
  l : ℚ
  b : ℚ
  hmsdms : String
  raStr : String
  decStr : String
  lStr : String
  bStr : String
deriving DecidableEq

/-- The lb_or_radec_selector choices of the DMForm. -/
inductive CoordMode
  | equatorial
  | galactic
deriving DecidableEq

/-- The d_or_dm_selector choices of the DMForm. -/
inductive SolveMode
  | dm
  | distance
deriving DecidableEq

/-- A call into the external pygedm electron-density model library,
recording the arguments passed (app.py lines 209-211 and 214-219). -/
inductive CEffect
  | dmToDistCall (l b dm : ℚ) (method : String)
  | distToDmCall (l b distPc : ℚ) (method : String)
deriving DecidableEq

inductive ComputeResponse
  | redirectCompute
  | render (coordString resultString : String)
  | renderForm
deriving DecidableEq

/-- External collaborators of the Compute route: the two coordinate
parsers of forms.py (not under src/), already composed with the astropy
galactic conversion, and the two pygedm conversions.  Each pygedm call
returns the numeric result in the displayed unit (pc for distances) plus
the model-reported second value. -/
structure ComputeX where
  parseEqu : String → SkyC
  parseGal : String → SkyC
  dmToDist : ℚ → ℚ → ℚ → String → ℚ × ℚ
  distToDm : ℚ → ℚ → ℚ → String → ℚ × ℚ

/-- The decoded, validated Compute form (class DMForm of forms.py, not
under src/), with the model_selector choices list carried by the form
field. -/
structure DMForm where
  coordinates : String
  lbOrRadec : CoordMode
  dOrDm : SolveMode
  value : ℚ
  modelSel : String
  choices : List (String × String)
  clear : Bool
  valid : Bool

/-- Lines 203-206 of app.py: parse the coordinate text with the parser
matching the frame selector. -/
def computeCoord (X : ComputeX) (form : DMForm) : SkyC :=
  match form.lbOrRadec with
  | .equatorial => X.parseEqu form.coordinates
  | .galactic => X.parseGal form.coordinates

/-- Lines 226-245 of app.py: the banner string, equatorial first or
galactic first according to the selector. -/
def computeCoordString (X : ComputeX) (form : DMForm) : String :=
  let c := computeCoord X form
  match form.lbOrRadec with
  | .equatorial =>
    "Computing for RA,Dec " ++ c.hmsdms ++ " = " ++ c.raStr ++ "d," ++
      c.decStr ++ "d" ++ "<br>= l,b = " ++ c.lStr ++ "d," ++ c.bStr ++ "d ..."
  | .galactic =>
    "Computing for l,b = " ++ c.lStr ++ "d," ++ c.bStr ++ "d ..." ++
      "<br>= RA,Dec " ++ c.hmsdms ++ " = " ++ c.raStr ++ "d," ++ c.decStr ++ "d"

/-- Lines 251-253 of app.py: scan the selector choices for the label of
the chosen model; the Python for/break loop leaves the last label bound
when nothing matches. -/
def labelFor (choices : List (String × String)) (m : String) : String :=
  match choices.find? (fun c => c.1 == m) with
  | some c => c.2
  | none => (choices.getLastD ("", "")).2

/-- The Compute route of app.py (function Compute, lines 191-268).  Mirrors
the source order: validation, coordinate parsing (203-206), the conversion
dispatch (207-219) which always calls pygedm, the clear redirect (221-223)
which comes only after that call, then the banner and result strings
(226-256).  In the dm branch the displayed distance is the first component
of dm_to_dist; in the distance branch the displayed DM is the first
component of dist_to_dm; the second component is bound to underscore in
the source.  An invalid submission can still clear (lines 265-266). -/
def Compute (X : ComputeX) (form : DMForm) : ComputeResponse × List CEffect :=
  if form.valid then
    let coord := computeCoord X form
    match form.dOrDm with
    | .dm =>
      let DM := form.value
      let dist := (X.dmToDist coord.l coord.b DM form.modelSel).1
      let effs := [CEffect.dmToDistCall coord.l coord.b DM form.modelSel]
      if form.clear then
        (.redirectCompute, effs)
      else
        (.render (computeCoordString X form)
            ("For DM = " ++ fixed1 DM ++ " pc/cc, find distance = " ++
              fixed1 dist ++ " pc"),
          effs)
    | .distance =>
      let dist := form.value
      let DM := (X.distToDm coord.l coord.b dist form.modelSel).1
      let effs := [CEffect.distToDmCall coord.l coord.b dist form.modelSel]
      if form.clear then
        (.redirectCompute, effs)
      else
        (.render (computeCoordString X form)
            ("For distance = " ++ fixed1 dist ++ " pc, find DM = " ++
              fixed1 DM ++ " pc/cc with the " ++
              labelFor form.choices form.modelSel ++ " model"),
          effs)
  else if form.clear then
    (.redirectCompute, [])
  else
    (.renderForm, [])

/-- Projection used to state facts about the HTML table carried by a
renderResults response. -/
def responseTable : SearchResponse → String
  | .renderResults _ _ _ t => t
  | _ => ""

/-! ### Concrete fixtures for witnesses and concrete evaluations -/

/-- A concrete computable separation oracle used only to instantiate the
externally supplied separation function in witnesses. -/
def sep0 : Coord → Coord → ℚ := fun a b => |a.ra - b.ra| + |a.dec - b.dec|

def entry0 : CatalogEntry :=
  { psr := "J0001+0001", pos := ⟨1, 1⟩, dm := some 50, period := 1,
    distance := 2, survey := "GBT" }

def apiX0 : ApiX := { sep := sep0, entries := [entry0] }

def argsMissingDec : ApiArgs :=
  { ra := some ("abc"), dec := none, radius := none, dm := none, dmtol := none }

def argsBadRadius : ApiArgs :=
  { ra := some ("10"), dec := some ("20"), radius := some ("abc"),
    dm := none, dmtol := none }

def argsDefaultRadius : ApiArgs :=
  { ra := some ("10"), dec := some ("20"), radius := none,
    dm := none, dmtol := none }

def searchX0 : SearchX :=
  { sep := sep0, entries := [entry0],
    parseEqu := fun _ => ⟨1, 1⟩,
    hmsdms := fun _ => ("00:04:00 +01:00:00"),
    raDec := fun _ => (("1.0"), ("+1.0")),
    surveys := [(("GBT"), ("http:g"))] }

def form3 : SearchForm :=
  { coordinates := "1d 1d", radius := 2, dm := some 40, dmtol := none,
    api := false, clear := false, valid := true }

def form4 : SearchForm :=
  { coordinates := "1d 1d", radius := 2, dm := some 40, dmtol := none,
    api := true, clear := false, valid := true }

/-! ### Claim C7 -/

def sky0 : SkyC :=
  { l := 10, b := 20, hmsdms := "00:40:00 +20:00:00", raStr := "10.0",
    decStr := "+20.0", lStr := "10.0", bStr := "20.0" }

def computeX1 : ComputeX :=
  { parseEqu := fun _ => sky0, parseGal := fun _ => sky0,
    dmToDist := fun _ _ _ _ => (1000, 1),
    distToDm := fun _ _ _ _ => (30, 1) }

/-- Identical to computeX1 except that the electron-density model reports
a different second value (the model-reported uncertainty). -/
def computeX2 : ComputeX :=
  { parseEqu := fun _ => sky0, parseGal := fun _ => sky0,
    dmToDist := fun _ _ _ _ => (1000, 999),
    distToDm := fun _ _ _ _ => (30, 1) }

def form7 : DMForm :=
  { coordinates := "00:40:00 +20:00:00", lbOrRadec := .equatorial,
    dOrDm := .dm, value := 50, modelSel := "ne2001",
    choices := [(("ne2001"), ("NE2001"))], clear := false, valid := true }

/-! ### Claim C9 -/

/-- Whether pat occurs as a contiguous segment of s. -/
def hasInfix (pat : List Char) : List Char → Bool
  | [] => pat.isEmpty
  | c :: rest => pat.isPrefixOf (c :: rest) || hasInfix pat rest

def entry9 : CatalogEntry :=
  { psr := "GBT-J1", pos := ⟨1, 2⟩, dm := none, period := 1, distance := 3,
    survey := "GBT" }

def searchX9 : SearchX :=
  { sep := fun _ _ => 0, entries := [entry9],
    parseEqu := fun _ => ⟨1, 2⟩,
    hmsdms := fun _ => ("00:04:00 +02:00:00"),
    raDec := fun _ => (("1.0"), ("+2.0")),
    surveys := [(("GBT"), ("http:g"))] }

def form9 : SearchForm :=
  { coordinates := "1d 2d", radius := 5, dm := none, dmtol := none,
    api := false, clear := false, valid := true }

def form10s : SearchForm :=
  { coordinates := "1d 1d", radius := 1, dm := none, dmtol := none,
    api := false, clear := true, valid := true }

def form10c : DMForm :=
  { coordinates := "1d 1d", lbOrRadec := .galactic, dOrDm := .distance,
    value := 100, modelSel := "ymw16", choices := [(("ymw16"), ("YMW16"))],
    clear := true, valid := true }

/-! ### Theorems -/

theorem mem_insertBy {le : α → α → Bool} {x a : α} {l : List α} :
    a ∈ insertBy le x l ↔ a = x ∨ a ∈ l := by
  induction l with
  | nil => simp [insertBy]
  | cons y ys ih =>
    simp only [insertBy]
    by_cases h : le x y = true
    · simp [h]
    · simp only [if_neg h, List.mem_cons, ih]
      tauto

theorem mem_sortBy {le : α → α → Bool} {a : α} {l : List α} :
    a ∈ sortBy le l ↔ a ∈ l := by
  induction l with
  | nil => simp [sortBy]
  | cons x xs ih => simp [sortBy, mem_insertBy, ih]

/-! ### Claim C1 -/

/-- C1: every entry returned by the catalog search invoked by the Search
form handler (app.py line 95) and the API route (line 184) lies within
the requested radius: its angular separation from the query center is at
most the radius, so no entry with separation above the radius appears. -/
theorem C1_search_radius_bound (sep : Coord → Coord → ℚ)
    (entries : List CatalogEntry) (c : Coord) (radius : ℚ)
    (dm dmtol : Option ℚ) (e : CatalogEntry)
    (he : e ∈ PulsarTable.search sep entries c radius dm dmtol) :
    sep c e.pos ≤ radius := by
  have h1 : e ∈ entries.filter (searchFilter sep c radius dm dmtol) :=
    mem_sortBy.mp he
  have h2 : searchFilter sep c radius dm dmtol e = true :=
    List.of_mem_filter h1
  simp only [searchFilter, Bool.and_eq_true, decide_eq_true_eq] at h2
  exact h2.1

theorem C1_search_radius_bound_witness :
    sep0 ⟨0, 0⟩ entry0.pos ≤ 5 :=
  C1_search_radius_bound sep0 [entry0] ⟨0, 0⟩ 5 none none entry0 (by decide)

/-! ### Claim C2 -/

/-- C2: evaluation of the API route at a request whose dec parameter is
absent while ra is present but not numeric ("abc").  Contrary to the
claim, the handler does not return a client-visible error message: line
165 runs float on ra before the dec check of line 168 ever happens, and
the ValueError escapes the handler.  The empty effect log shows no
catalog scan is performed.  (When ra is absent, line 167 does return the
client-visible error, ra being checked first.) -/
theorem C2_missing_dec_uncaught_eval :
    API apiX0 argsMissingDec = (.uncaughtValueError ("abc"), []) := by decide

/-! ### Claim C3 -/

/-- C3: when the DM-tolerance field is absent, the fallback branch of
app.py line 61 assigns form.dm.data, the DM field itself, to the
tolerance.  The handler therefore invokes the catalog search with its
DM-tolerance argument equal to the DM field, and in particular, when a DM
is present, the tolerance used equals the DM value. -/
theorem C3_dmtol_fallback (X : SearchX) (form : SearchForm)
    (hv : form.valid = true) (ha : form.api = false) (hc : form.clear = false)
    (hno : form.dmtol = none) :
    (Search X form).2 =
      [.searchCall (X.parseEqu form.coordinates) ⟨form.radius, 1⟩ form.dm form.dm]
    ∧ ∀ d : ℚ, form.dm = some d → searchDMtol form = some d := by
  constructor
  · simp [Search, hv, ha, hc, searchDMtol, hno]
  · intro d hd
    simp [searchDMtol, hno, hd]

theorem C3_dmtol_fallback_witness :
    (Search searchX0 form3).2 =
      [.searchCall (searchX0.parseEqu form3.coordinates) ⟨form3.radius, 1⟩
        form3.dm form3.dm] :=
  (C3_dmtol_fallback searchX0 form3 rfl rfl rfl rfl).1

/-! ### Claim C5 -/

/-- C5: evaluation of the API route at a request whose radius parameter
is the non-numeric text "abc".  Contrary to the claim, no client-visible
error value echoing the bad input is returned: float at line 173 raises
ValueError and nothing catches it, so the request fails with an uncaught
exception.  The try/except of lines 179-182 only wraps the SkyCoord
construction, which receives already-converted floats. -/
theorem C5_bad_radius_uncaught_eval :
    API apiX0 argsBadRadius = (.uncaughtValueError ("abc"), []) := by decide

/-! ### Claim C6 -/

/-- C6: evaluation of the API route at a request with ra and dec supplied
and radius, dm, dmtol omitted.  The defaults for dm (None) and dmtol (10)
reach the search as the claim states, but the radius default is the
quantity 5 deg (line 160), which line 185 multiplies by deg again, so the
matcher receives 5 deg squared instead of 5 deg and the request dies in a
unit-conversion error instead of searching with the documented 5-degree
default. -/
theorem C6_default_radius_units_eval :
    API apiX0 argsDefaultRadius =
      (.uncaughtUnitError ⟨5, 2⟩,
        [.searchCall ⟨10, 20⟩ ⟨5, 2⟩ none (some 10)]) := by decide

/-! ### Claim C4 -/

/-- When no DM center is given the DM filter is inactive and the
DM-tolerance argument is irrelevant to the matcher. -/
theorem search_dm_none (sep : Coord → Coord → ℚ) (entries : List CatalogEntry)
    (c : Coord) (radius : ℚ) (t1 t2 : Option ℚ) :
    PulsarTable.search sep entries c radius none t1 =
      PulsarTable.search sep entries c radius none t2 := by
  have h : ∀ t : Option ℚ, entries.filter (searchFilter sep c radius none t) =
      entries.filter (fun e => decide (sep c e.pos ≤ radius)) := by
    intro t
    apply List.filter_congr
    intro e _
    cases t <;> simp [searchFilter]
  unfold PulsarTable.search
  rw [h t1, h t2]

/-- C4: a valid Search submission with the API button pressed redirects to
the API route instead of rendering HTML (lines 66-86), carrying ra and dec
in degrees and the radius, plus dm and dmtol exactly when a DM was given;
and the catalog search the API route performs on the redirect parameters
(apiSearchOf) coincides with the search the HTML path of lines 95-97 would
have performed. -/
theorem C4_api_redirect_equiv (X : SearchX) (form : SearchForm)
    (hv : form.valid = true) (ha : form.api = true) :
    (form.dm = none →
      (Search X form).1 = .redirectAPI (X.parseEqu form.coordinates).ra
        (X.parseEqu form.coordinates).dec form.radius none none
      ∧ apiSearchOf X.sep X.entries (X.parseEqu form.coordinates).ra
          (X.parseEqu form.coordinates).dec form.radius none none =
        PulsarTable.search X.sep X.entries (X.parseEqu form.coordinates)
          form.radius form.dm (searchDMtol form))
    ∧ (∀ d : ℚ, form.dm = some d →
      (Search X form).1 = .redirectAPI (X.parseEqu form.coordinates).ra
        (X.parseEqu form.coordinates).dec form.radius (some d) (searchDMtol form)
      ∧ (searchDMtol form).isSome = true
      ∧ apiSearchOf X.sep X.entries (X.parseEqu form.coordinates).ra
          (X.parseEqu form.coordinates).dec form.radius (some d)
          (searchDMtol form) =
        PulsarTable.search X.sep X.entries (X.parseEqu form.coordinates)
          form.radius form.dm (searchDMtol form)) := by
  constructor
  · intro h
    refine ⟨by simp [Search, hv, ha, h], ?_⟩
    unfold apiSearchOf
    rw [h]
    exact search_dm_none X.sep X.entries _ form.radius _ _
  · intro d hd
    refine ⟨by simp [Search, hv, ha, hd], ?_, ?_⟩
    · cases hdt : form.dmtol with
      | some t => simp [searchDMtol, hdt]
      | none => simp [searchDMtol, hdt, hd]
    · unfold apiSearchOf
      rw [hd]
      cases hdt : form.dmtol with
      | some t => simp [searchDMtol, hdt]
      | none => simp [searchDMtol, hdt, hd]

theorem C4_api_redirect_equiv_witness :
    (Search searchX0 form4).1 = .redirectAPI
      (searchX0.parseEqu form4.coordinates).ra
      (searchX0.parseEqu form4.coordinates).dec form4.radius (some 40)
      (searchDMtol form4)
    ∧ (searchDMtol form4).isSome = true
    ∧ apiSearchOf searchX0.sep searchX0.entries
        (searchX0.parseEqu form4.coordinates).ra
        (searchX0.parseEqu form4.coordinates).dec form4.radius (some 40)
        (searchDMtol form4) =
      PulsarTable.search searchX0.sep searchX0.entries
        (searchX0.parseEqu form4.coordinates) form4.radius form4.dm
        (searchDMtol form4) :=
  (C4_api_redirect_equiv searchX0 form4 rfl rfl).2 40 rfl

/-- C7 counterexample: two model libraries that agree on the numeric
result but report different uncertainties (second return value) produce
byte-identical Compute responses, so the rendered output does not surface
the model-reported uncertainty: lines 209 and 214 of app.py bind the
second component to underscore and the result strings of lines 247 and
254 use only the first. -/
theorem C7_uncertainty_not_surfaced :
    Compute computeX1 form7 = Compute computeX2 form7
    ∧ (computeX1.dmToDist sky0.l sky0.b form7.value form7.modelSel).2 ≠
      (computeX2.dmToDist sky0.l sky0.b form7.value form7.modelSel).2 := by
  constructor
  · decide
  · decide

/-- C7 (amended): a valid Compute submission converts the parsed
coordinate to galactic frame and dispatches on the solve selector, the dm
choice calling dm_to_dist with the input DM and the distance choice
calling dist_to_dm with the input distance in parsecs, both passing the
chosen model name through unchanged; the rendered output surfaces the
numeric result (first component) of the library call, while the
model-reported second value is discarded. -/
theorem C7_compute_dispatch (X : ComputeX) (form : DMForm)
    (hv : form.valid = true) (hc : form.clear = false) :
    (form.dOrDm = .dm →
      Compute X form =
        (.render (computeCoordString X form)
          ("For DM = " ++ fixed1 form.value ++ " pc/cc, find distance = " ++
            fixed1 (X.dmToDist (computeCoord X form).l (computeCoord X form).b
              form.value form.modelSel).1 ++ " pc"),
         [.dmToDistCall (computeCoord X form).l (computeCoord X form).b
            form.value form.modelSel]))
    ∧ (form.dOrDm = .distance →
      Compute X form =
        (.render (computeCoordString X form)
          ("For distance = " ++ fixed1 form.value ++ " pc, find DM = " ++
            fixed1 (X.distToDm (computeCoord X form).l (computeCoord X form).b
              form.value form.modelSel).1 ++ " pc/cc with the " ++
            labelFor form.choices form.modelSel ++ " model"),
         [.distToDmCall (computeCoord X form).l (computeCoord X form).b
            form.value form.modelSel])) := by
  constructor <;> intro h <;> simp [Compute, hv, hc, h]

theorem C7_compute_dispatch_witness :
    Compute computeX1 form7 =
      (.render (computeCoordString computeX1 form7)
        ("For DM = " ++ fixed1 form7.value ++ " pc/cc, find distance = " ++
          fixed1 (computeX1.dmToDist (computeCoord computeX1 form7).l
            (computeCoord computeX1 form7).b form7.value form7.modelSel).1 ++
          " pc"),
       [.dmToDistCall (computeCoord computeX1 form7).l
          (computeCoord computeX1 form7).b form7.value form7.modelSel]) :=
  (C7_compute_dispatch computeX1 form7 rfl rfl).1 rfl

/-! ### Claim C8 -/

/-- C8: on the HTML path of the Search route the response carries the
table produced by the formatter pipeline, and in every rendered row the
cell texts are exactly the entry fields with the P and Distance columns
rendered by fixed2, the fixed 2-decimal formatter of line 115. -/
theorem C8_fixed2_columns (X : SearchX) (form : SearchForm)
    (hv : form.valid = true) (ha : form.api = false) (hc : form.clear = false) :
    (Search X form).1 = .renderResults X.surveys (searchCoordString X form)
      (PulsarTable.search X.sep X.entries (X.parseEqu form.coordinates)
        form.radius form.dm (searchDMtol form)).length
      (linkify X.surveys (toHtml searchFormatters
        (PulsarTable.search X.sep X.entries (X.parseEqu form.coordinates)
          form.radius form.dm (searchDMtol form))))
    ∧ ∀ e : CatalogEntry,
      (entryCells e).map (fun c => renderCell searchFormatters c.1 c.2) =
        [e.psr, defaultFmt e.pos.ra, defaultFmt e.pos.dec, fixed2 e.period,
         renderCell searchFormatters ("DM") (dmCell e.dm), fixed2 e.distance,
         e.survey] := by
  constructor
  · simp [Search, hv, ha, hc]
  · intro e
    rfl

theorem C8_fixed2_columns_witness :
    (Search searchX0 form3).1 = .renderResults searchX0.surveys
      (searchCoordString searchX0 form3)
      (PulsarTable.search searchX0.sep searchX0.entries
        (searchX0.parseEqu form3.coordinates) form3.radius form3.dm
        (searchDMtol form3)).length
      (linkify searchX0.surveys (toHtml searchFormatters
        (PulsarTable.search searchX0.sep searchX0.entries
          (searchX0.parseEqu form3.coordinates) form3.radius form3.dm
          (searchDMtol form3)))) :=
  (C8_fixed2_columns searchX0 form3 rfl rfl rfl).1

theorem replaceFuel_nil (pat repl : List Char) (fuel : ℕ) :
    replaceFuel pat repl fuel [] = [] := by
  cases fuel <;> rfl

theorem isPrefixOf_append_self (x y : List Char) :
    x.isPrefixOf (x ++ y) = true := by
  induction x with
  | nil => cases y <;> rfl
  | cons c cs ih => simp [List.isPrefixOf, ih]

theorem drop_length_append (x y : List Char) : (x ++ y).drop x.length = y := by
  induction x with
  | nil => rfl
  | cons c cs ih => simp [ih]

theorem replaceFuel_cons_pos (pat repl : List Char) (f : ℕ) (c : Char)
    (rest : List Char) (h : pat.isPrefixOf (c :: rest) = true ∧ pat ≠ []) :
    replaceFuel pat repl (f + 1) (c :: rest) =
      repl ++ replaceFuel pat repl f ((c :: rest).drop pat.length) := by
  simp only [replaceFuel]
  rw [if_pos h]

theorem replaceFuel_cons_neg (pat repl : List Char) (f : ℕ) (c : Char)
    (rest : List Char) (h : ¬(pat.isPrefixOf (c :: rest) = true ∧ pat ≠ [])) :
    replaceFuel pat repl (f + 1) (c :: rest) =
      c :: replaceFuel pat repl f rest := by
  simp only [replaceFuel]
  rw [if_neg h]

/-- Any fuel at least the length of the subject gives the same result. -/
theorem replaceFuel_irrel (pat repl : List Char) :
    ∀ (f1 f2 : ℕ) (s : List Char), s.length ≤ f1 → s.length ≤ f2 →
      replaceFuel pat repl f1 s = replaceFuel pat repl f2 s := by
  intro f1
  induction f1 with
  | zero =>
    intro f2 s h1 _
    have hs : s = [] := List.eq_nil_of_length_eq_zero (Nat.le_zero.mp h1)
    subst hs
    rw [replaceFuel_nil, replaceFuel_nil]
  | succ f ih =>
    intro f2 s h1 h2
    cases s with
    | nil => rw [replaceFuel_nil, replaceFuel_nil]
    | cons c rest =>
      cases f2 with
      | zero => simp at h2
      | succ f2x =>
        have hpatlen : pat ≠ [] → 1 ≤ pat.length := by
          intro hne
          cases pat with
          | nil => exact absurd rfl hne
          | cons _ _ => simp
        by_cases hp : pat.isPrefixOf (c :: rest) = true ∧ pat ≠ []
        · rw [replaceFuel_cons_pos pat repl f c rest hp,
            replaceFuel_cons_pos pat repl f2x c rest hp]
          congr 1
          have hplen := hpatlen hp.2
          apply ih
          · simp only [List.length_drop, List.length_cons]
            simp only [List.length_cons] at h1
            omega
          · simp only [List.length_drop, List.length_cons]
            simp only [List.length_cons] at h2
            omega
        · rw [replaceFuel_cons_neg pat repl f c rest hp,
            replaceFuel_cons_neg pat repl f2x c rest hp]
          congr 1
          apply ih
          · simp only [List.length_cons] at h1
            omega
          · simp only [List.length_cons] at h2
            omega

/-- The occurrence of pat sitting right after a is replaced, wherever a is
in the string, provided no occurrence of pat starts inside a; the scan
then continues after the consumed occurrence. -/
theorem replaceFuel_append (pat repl : List Char) (hpat : pat ≠ []) :
    ∀ (a b : List Char) (fuel : ℕ),
      (a ++ (pat ++ b)).length ≤ fuel →
      (∀ k, k < a.length → pat.isPrefixOf ((a ++ (pat ++ b)).drop k) = false) →
      replaceFuel pat repl fuel (a ++ (pat ++ b)) =
        a ++ (repl ++ replaceFuel pat repl (fuel - (a.length + pat.length)) b) := by
  intro a
  induction a with
  | nil =>
    intro b fuel hlen _
    simp only [List.nil_append, List.length_nil, Nat.zero_add] at hlen ⊢
    obtain ⟨p, ps, hp⟩ := List.exists_cons_of_ne_nil hpat
    have hcons : pat ++ b = p :: (ps ++ b) := by rw [hp]; rfl
    have hpl : 1 ≤ pat.length := by rw [hp]; simp
    have hlb : pat.length + b.length ≤ fuel := by
      simpa [List.length_append] using hlen
    cases fuel with
    | zero => omega
    | succ f =>
      rw [hcons, replaceFuel_cons_pos pat repl f p (ps ++ b)
        ⟨by rw [← hcons]; exact isPrefixOf_append_self pat b, hpat⟩]
      rw [← hcons, drop_length_append]
      congr 1
      apply replaceFuel_irrel
      · omega
      · omega
  | cons c ax ih =>
    intro b fuel hlen hocc
    cases fuel with
    | zero => simp at hlen
    | succ f =>
      have h0 : pat.isPrefixOf (c :: (ax ++ (pat ++ b))) = false := by
        have h := hocc 0 (by simp)
        simpa using h
      have hl : (ax ++ (pat ++ b)).length ≤ f := by
        simp only [List.cons_append, List.length_cons] at hlen
        omega
      have ho : ∀ k, k < ax.length →
          pat.isPrefixOf ((ax ++ (pat ++ b)).drop k) = false := by
        intro k hk
        have h := hocc (k + 1) (by simp only [List.length_cons]; omega)
        simpa using h
      have harith : f - (ax.length + pat.length) =
          (f + 1) - ((c :: ax).length + pat.length) := by
        simp only [List.length_cons]
        omega
      have hstep : (c :: ax) ++ (pat ++ b) = c :: (ax ++ (pat ++ b)) := rfl
      rw [hstep, replaceFuel_cons_neg pat repl f c (ax ++ (pat ++ b))
        (by intro hand; rw [h0] at hand; exact Bool.false_ne_true hand.1)]
      rw [ih b f hl ho, harith]
      rfl

set_option maxRecDepth 8192 in
/-- C9 counterexample: with the survey table holding GBT and a catalog
entry whose pulsar name contains the text GBT, the HTML table returned by
the Search route carries the anchor markup inside the PSR cell, a column
other than the survey column: the global string replace of lines 119-125
rewrites every occurrence, not only survey cells. -/
theorem C9_psr_cell_hyperlinked :
    hasInfix ("<td><a href=\x27http:g\x27>GBT</a>-J1</td>").data
      (responseTable (Search searchX9 form9).1).data = true := by decide

/-- C9 (amended): the survey-link pass rewrites every occurrence of a
survey name in the whole HTML string into the anchor hyperlink, scanning
left to right: an occurrence preceded by text containing no occurrence
becomes the anchor wherever it sits, in the survey column or not, and the
scan continues on the remainder. -/
theorem C9_linkify_rewrites_every_occurrence (n u : String) (a b : List Char)
    (h1 : n.data ≠ [])
    (h2 : ∀ k, k < a.length →
      (n.data).isPrefixOf ((a ++ (n.data ++ b)).drop k) = false) :
    linkify [(n, u)] (String.mk (a ++ (n.data ++ b))) =
      String.mk (a ++ ((anchorFor n u).data ++
        replaceList n.data (anchorFor n u).data b)) := by
  unfold linkify
  simp only [List.foldl]
  unfold pyReplace replaceList
  congr 1
  rw [replaceFuel_append n.data (anchorFor n u).data h1 a b _ (le_refl _) h2]
  congr 2
  apply replaceFuel_irrel
  · simp only [List.length_append]
    omega
  · exact le_refl _

theorem C9_linkify_rewrites_every_occurrence_witness :
    linkify [(("GBT"), ("http:g"))]
      (String.mk (("<td>").data ++ (("GBT").data ++ ("</td>").data))) =
      String.mk (("<td>").data ++ ((anchorFor ("GBT") ("http:g")).data ++
        replaceList ("GBT").data (anchorFor ("GBT") ("http:g")).data
          ("</td>").data)) :=
  C9_linkify_rewrites_every_occurrence ("GBT") ("http:g") ("<td>").data
    ("</td>").data (by decide) (by decide)

/-! ### Claim C10 -/

/-- C10: a valid Compute submission with the clear flag still invokes the
electron-density conversion, because the dispatch of lines 207-219 runs
before the clear check of lines 221-223, and then redirects, discarding
the result; a valid Search submission with the clear flag (API flag
unset) redirects at lines 87-89 before the search of line 95, with an
empty call log. -/
theorem C10_clear_invokes_compute_not_search (XS : SearchX) (XC : ComputeX)
    (sform : SearchForm) (cform : DMForm)
    (hcv : cform.valid = true) (hcc : cform.clear = true)
    (hsv : sform.valid = true) (hsa : sform.api = false)
    (hsc : sform.clear = true) :
    ((cform.dOrDm = .dm →
      Compute XC cform = (.redirectCompute,
        [.dmToDistCall (computeCoord XC cform).l (computeCoord XC cform).b
          cform.value cform.modelSel]))
    ∧ (cform.dOrDm = .distance →
      Compute XC cform = (.redirectCompute,
        [.distToDmCall (computeCoord XC cform).l (computeCoord XC cform).b
          cform.value cform.modelSel])))
    ∧ Search XS sform = (.redirectSearch, []) := by
  refine ⟨⟨?_, ?_⟩, ?_⟩
  · intro h
    simp [Compute, hcv, hcc, h]
  · intro h
    simp [Compute, hcv, hcc, h]
  · simp [Search, hsv, hsa, hsc]

theorem C10_clear_invokes_compute_not_search_witness :
    Compute computeX1 form10c = (.redirectCompute,
      [.distToDmCall (computeCoord computeX1 form10c).l
        (computeCoord computeX1 form10c).b form10c.value form10c.modelSel])
    ∧ Search searchX0 form10s = (.redirectSearch, []) :=
  ⟨(C10_clear_invokes_compute_not_search searchX0 computeX1 form10s form10c
      rfl rfl rfl rfl rfl).1.2 rfl,
   (C10_clear_invokes_compute_not_search searchX0 computeX1 form10s form10c
      rfl rfl rfl rfl rfl).2⟩
